import Mathlib

/-!
Verification of the glacier resource-streaming subsystem
(`src/routes/glacier/lib/stream.ts`-style module, `part_000`).

The TypeScript pipeline `stream(ctx, type)` validates the request id,
looks up metadata in the database, enforces the per-kind authorisation
policy, resolves the on-disk path and hands off to `streamFile`.
This file embeds that pipeline shallowly: external collaborators (the
database tables, the JWT verifier, the configuration) become explicit
parameters of an environment record, and the side effects of one request
(`ctx.standard(...)`, thrown errors, the final `streamFile` call and the
`ctx.cache` assignment) become the constructors of `StreamResult`.
-/

namespace Glacier

/-! ### JavaScript string→number semantics

`validateRequest` uses `isNaN(ctx.params.id)` (which coerces the string
through `Number(...)`) and `parseInt(ctx.params.id, 10)`.  We model both
ECMAScript conversions on ASCII strings. -/

/-- JS `StrWhiteSpace` characters (the ASCII ones plus NBSP and BOM). -/
def jsWhitespace (c : Char) : Bool :=
  c = ' ' || c = '\t' || c = '\n' || c = '\r' ||
  c = Char.ofNat 0x0b || c = Char.ofNat 0x0c ||
  c = Char.ofNat 0xa0 || c = Char.ofNat 0xfeff

/-- Strip leading and trailing JS whitespace. -/
def jsTrim (l : List Char) : List Char :=
  ((l.dropWhile jsWhitespace).reverse.dropWhile jsWhitespace).reverse

/-- Recognise an optional exponent part `[eE][+-]?digits` filling the rest. -/
def expOk : List Char → Bool
  | [] => true
  | c :: rest =>
    (c = 'e' || c = 'E') &&
      (let body := match rest with
        | s :: r => if s = '+' || s = '-' then r else s :: r
        | [] => []
      (!(body.takeWhile Char.isDigit).isEmpty) &&
        (body.dropWhile Char.isDigit).isEmpty)

/-- Recognise `digits [. digits] [exp]` or `. digits [exp]` filling the list. -/
def mantissaExpOk (l : List Char) : Bool :=
  let d1 := l.takeWhile Char.isDigit
  let r1 := l.dropWhile Char.isDigit
  if d1.isEmpty then
    match r1 with
    | '.' :: r2 =>
      (!(r2.takeWhile Char.isDigit).isEmpty) && expOk (r2.dropWhile Char.isDigit)
    | _ => false
  else
    match r1 with
    | '.' :: r2 => expOk (r2.dropWhile Char.isDigit)
    | _ => expOk r1

/-- Recognise an unsigned `StrUnsignedDecimalLiteral` (including `Infinity`). -/
def unsignedDecOk (l : List Char) : Bool :=
  l = "Infinity".data || mantissaExpOk l

/-- Recognise a signed `StrDecimalLiteral`. -/
def strDecimalOk : List Char → Bool
  | [] => false
  | c :: rest =>
    if c = '+' || c = '-' then unsignedDecOk rest else unsignedDecOk (c :: rest)

def hexDigitChar (c : Char) : Bool :=
  c.isDigit || ('a' ≤ c && c ≤ 'f') || ('A' ≤ c && c ≤ 'F')

def octDigitChar (c : Char) : Bool := '0' ≤ c && c ≤ '7'

def binDigitChar (c : Char) : Bool := c = '0' || c = '1'

/-- One or more digits of the radix, filling the list. -/
def radixDigitsOk (p : Char → Bool) (l : List Char) : Bool :=
  (!(l.takeWhile p).isEmpty) && (l.dropWhile p).isEmpty

/-- Recognise `0x…`, `0o…`, `0b…` non-decimal integer literals (unsigned). -/
def nonDecimalOk : List Char → Bool
  | '0' :: c :: rest =>
    if c = 'x' || c = 'X' then radixDigitsOk hexDigitChar rest
    else if c = 'o' || c = 'O' then radixDigitsOk octDigitChar rest
    else if c = 'b' || c = 'B' then radixDigitsOk binDigitChar rest
    else false
  | _ => false

/-- JS `isNaN(s)` for a string `s`: `Number(s)` is NaN iff the trimmed
string is nonempty and matches no `StringNumericLiteral` production. -/
def jsIsNaN (s : String) : Bool :=
  let l := jsTrim s.data
  !(l.isEmpty || strDecimalOk l || nonDecimalOk l)

/-- Value of a string of decimal digit characters. -/
def digitsVal (l : List Char) : Nat :=
  l.foldl (fun acc c => acc * 10 + (c.toNat - 48)) 0

/-- JS `parseInt(s, 10)`: skip leading whitespace, optional sign, longest
digit run; `none` models NaN.  (Huge inputs lose float precision in JS;
the ids in play are small, so the exact-integer model is faithful.) -/
def jsParseInt10 (s : String) : Option Int :=
  let l := s.data.dropWhile jsWhitespace
  let core : List Char → Option Nat := fun m =>
    let d := m.takeWhile Char.isDigit
    if d.isEmpty then none else some (digitsVal d)
  match l with
  | '+' :: r => (core r).map (fun n => (n : Int))
  | '-' :: r => (core r).map (fun n => -(n : Int))
  | _ => (core l).map (fun n => (n : Int))

/-! ### JS decimal rendering of a number (`id.toString()`) -/

/-- Little-endian base-10 digits, by explicit fuel so it reduces. -/
def digitsFuel : Nat → Nat → List Nat
  | 0, _ => []
  | fuel + 1, n => if n = 0 then [] else n % 10 :: digitsFuel fuel (n / 10)

/-- Little-endian base-10 digits of `n`. -/
def decDigits (n : Nat) : List Nat := digitsFuel (n + 1) n

/-- Decimal string of a natural number, as JS renders it. -/
def natDecStr (n : Nat) : String :=
  if n = 0 then "0"
  else ⟨((decDigits n).map (fun d => Char.ofNat (d + 48))).reverse⟩

/-- Decimal string of an integer, as JS `Number.prototype.toString`. -/
def jsIntToString : Int → String
  | .ofNat n => natDecStr n
  | .negSucc n => "-" ++ natDecStr (n + 1)

/-- JS `id.toString()` where `id` may be NaN (`parseInt` failure). -/
def jsNumToString : Option Int → String
  | none => "NaN"
  | some i => jsIntToString i

/-! ### Data model -/

/-- A JS query-parameter value as seen through `typeof v === "string"`:
either a string or some other defined value (array, object, …). -/
inductive JSVal where
  | str (s : String)
  | other
deriving DecidableEq

/-- The per-request values the pipeline consumes:
`ctx.params.id`, `ctx.query.authorisation`, `ctx.query.download`
(`none` models the JS `undefined`). -/
structure Ctx where
  paramsId : String
  queryAuthorisation : Option JSVal
  queryDownload : Option JSVal
deriving DecidableEq

/-- Row shape of `Export.query().findById(id).select("filename", "mime",
"film_id as filmId")`. -/
structure ExportRecord where
  filename : String
  mime : String
  filmId : Int
deriving DecidableEq

/-- Row shape of `Thumbnail.query().findById(id).select("mime",
"film_id as filmId")` (`mime` is optional in the declared type). -/
structure ThumbnailRecord where
  mime : Option String
  filmId : Int
deriving DecidableEq

/-- Declared result type of `getTypeMeta`. -/
structure TypeMeta where
  filmId : Int
  mime : Option String
  filename : Option String
deriving DecidableEq

/-- Claims payload of a verified download token (`{ resourceId: number }`). -/
structure Claims where
  resourceId : Int
deriving DecidableEq

/-- External collaborators of one request: the two database tables
(keyed by the parsed id, which may be NaN = `none`), the JWT verifier
`verifyJwt(token, secret)` from `lib/jsonWebToken` (returns the payload
or a falsy value), and the configuration (`Config.get("glacier")`). -/
structure Env where
  exportDb : Option Int → Option ExportRecord
  thumbDb : Option Int → Option ThumbnailRecord
  verifyJwt : String → String → Option Claims
  secret : String
  root : String

/-- TypeScript `const enum EType { EXPORT = 0, THUMBNAIL = 1 }` — TypeScript erases
the enum to plain numbers, so the model keeps the numeric type open. -/
abbrev EType := Nat

def EXPORT : EType := 0
def THUMBNAIL : EType := 1

/-- The `AUTH_REQUIRED` table; `none` models the `undefined` a JS dictionary
yields for a key outside the enum. -/
def AUTH_REQUIRED (t : EType) : Option Bool :=
  if t = EXPORT then some true
  else if t = THUMBNAIL then some false
  else none

/-- The `CACHE_DURATION` table, in seconds. -/
def CACHE_DURATION (t : EType) : Option Nat :=
  if t = EXPORT then some 0
  else if t = THUMBNAIL then some 600
  else none

/-! ### The pipeline -/

/-- The three ways `validateRequest` can end: a `ctx.standard(400, msg)`
response, a thrown `Error`, or the `{ id, authRequired }` object. -/
inductive ValidateResult where
  | badRequest (msg : String)
  | thrown (msg : String)
  | ok (id : Option Int) (authRequired : Bool)
deriving DecidableEq

/-- Source `validateRequest(ctx, type)`: reject when `isNaN(ctx.params.id)`,
throw when the `AUTH_REQUIRED` table has no boolean for `type`, else
return `parseInt(ctx.params.id, 10)` and the auth flag. -/
def validateRequest (ctx : Ctx) (type : EType) : ValidateResult :=
  if jsIsNaN ctx.paramsId then .badRequest "\"id\" must be a number"
  else
    match AUTH_REQUIRED type with
    | some authRequired => .ok (jsParseInt10 ctx.paramsId) authRequired
    | none => .thrown ("Could not find authorisation requirement for type " ++ natDecStr type)

/-- Source `getTypeMeta(type, id)`: one keyed lookup per kind; the `default`
branch returns `null`. -/
def getTypeMeta (env : Env) (type : EType) (id : Option Int) : Option TypeMeta :=
  if type = EXPORT then
    (env.exportDb id).map (fun r => ⟨r.filmId, some r.mime, some r.filename⟩)
  else if type = THUMBNAIL then
    (env.thumbDb id).map (fun r => ⟨r.filmId, r.mime, none⟩)
  else none

/-- Source `verifyAuth(ctx, type, filmId)` as a pure decision: the `switch` only
implements `EXPORT` (token must be a string, `verifyJwt` must return a
truthy payload, and `payload.resourceId === filmId`); every other kind
leaves `authorised = false`. -/
def verifyAuth (env : Env) (ctx : Ctx) (type : EType) (filmId : Int) : Bool :=
  if type = EXPORT then
    match ctx.queryAuthorisation with
    | some (.str token) =>
      match env.verifyJwt token env.secret with
      | some payload => payload.resourceId == filmId
      | none => false
    | _ => false
  else false

/-- Source `generatePath(type, id, filmId)`.  `join(ROOT, seg, id.toString())`
is modelled as `/`-separated concatenation (faithful for a normalised
root, which the configuration provides); the `default` branch logs and
throws. -/
def generatePath (root : String) (type : EType) (id : Option Int) : Except String String :=
  if type = EXPORT then .ok (root ++ "/" ++ "exports" ++ "/" ++ jsNumToString id)
  else if type = THUMBNAIL then .ok (root ++ "/" ++ "thumbs" ++ "/" ++ jsNumToString id)
  else .error "Failed to generate glacier content path"

/-- Observable outcome of one `stream(ctx, type)` call: the
`ctx.standard` error responses, a thrown `Error`, or the hand-off
`streamFile(ctx, path, mime, attachment)` together with the `ctx.cache`
value `applyCacheDuration` left behind. -/
inductive StreamResult where
  | badRequest (msg : String)
  | notFound
  | unauthorized
  | thrown (msg : String)
  | streamed (path : String) (mime : Option String)
      (attachment : Option String) (cache : Option Nat)
deriving DecidableEq

/-- Source `stream(ctx, type)`: validate, look up metadata (404 when absent),
enforce authorisation when required (401 on failure), then resolve the
path, apply the cache duration and stream. -/
def stream (env : Env) (ctx : Ctx) (type : EType) : StreamResult :=
  match validateRequest ctx type with
  | .badRequest m => .badRequest m
  | .thrown m => .thrown m
  | .ok id authRequired =>
    match getTypeMeta env type id with
    | none => .notFound
    | some meta =>
      if authRequired && !(verifyAuth env ctx type meta.filmId) then .unauthorized
      else
        match generatePath env.root type id with
        | .error m => .thrown m
        | .ok path =>
          .streamed path meta.mime
            (if ctx.queryDownload.isSome then meta.filename else none)
            (CACHE_DURATION type)

/-- Modelled from the spec: the respond middleware (`middleware/respond`,
not under `src/`) translates the tagged outcomes to HTTP status codes —
BadRequest → 400, NotFound → 404, Unauthorized → 401, a thrown error →
500; a successful hand-off delegates the status to `streamFile`. -/
def httpStatus : StreamResult → Option Nat
  | .badRequest _ => some 400
  | .notFound => some 404
  | .unauthorized => some 401
  | .thrown _ => some 500
  | .streamed _ _ _ _ => none

/-- Modelled from the spec: the response layer (not under `src/`) emits a
caching header only when `ctx.cache` is defined and nonzero; a zero
duration suppresses the header entirely (spec §4.5, §9). -/
def emittedCacheHeader : Option Nat → Option Nat
  | some n => if n = 0 then none else some n
  | none => none

/-! ### Concrete sample environment used to exercise the pipeline -/

/-- A small concrete environment: export 42 and thumbnails 3 and -5
exist, all owned by film 7; exactly the token `"goodtoken"` verifies
under the configured secret, carrying `resourceId = 7`. -/
def sampleEnv : Env where
  exportDb := fun i => if i = some 42 then some ⟨"film.mp4", "video/mp4", 7⟩ else none
  thumbDb := fun i =>
    if i = some 3 then some ⟨some "image/png", 7⟩
    else if i = some (-5) then some ⟨some "image/png", 7⟩
    else none
  verifyJwt := fun t s => if t = "goodtoken" && s = "hush" then some ⟨7⟩ else none
  secret := "hush"
  root := "/glacier"

/-! ### Correctness of the fuelled digit expansion -/

theorem digitsFuel_eq_digits :
    ∀ fuel n, n ≤ fuel → digitsFuel fuel n = Nat.digits 10 n := by
  intro fuel
  induction fuel with
  | zero =>
    intro n hn
    interval_cases n
    simp [digitsFuel]
  | succ fuel ih =>
    intro n hn
    by_cases h0 : n = 0
    · simp [digitsFuel, h0]
    · rw [digitsFuel, if_neg h0,
        Nat.digits_def' (b := 10) (by norm_num) (Nat.pos_of_ne_zero h0),
        ih (n / 10) ?_]
      have hlt : n / 10 < n := Nat.div_lt_self (Nat.pos_of_ne_zero h0) (by norm_num)
      omega

theorem decDigits_eq_digits (n : Nat) : decDigits n = Nat.digits 10 n :=
  digitsFuel_eq_digits (n + 1) n (Nat.le_succ n)

theorem mem_decDigits_lt {n d : Nat} (hd : d ∈ decDigits n) : d < 10 := by
  rw [decDigits_eq_digits] at hd
  exact Nat.digits_lt_base (by norm_num) hd

/-! ### Injectivity of the decimal rendering -/

theorem digitChar_inj_lt :
    ∀ a < 10, ∀ b < 10, Char.ofNat (a + 48) = Char.ofNat (b + 48) → a = b := by
  decide

theorem digitChar_ne_dash : ∀ d < 10, Char.ofNat (d + 48) ≠ '-' := by
  decide

theorem map_digitChar_inj :
    ∀ l₁ l₂ : List Nat, (∀ d ∈ l₁, d < 10) → (∀ d ∈ l₂, d < 10) →
      l₁.map (fun d => Char.ofNat (d + 48)) = l₂.map (fun d => Char.ofNat (d + 48)) →
      l₁ = l₂ := by
  intro l₁
  induction l₁ with
  | nil =>
    intro l₂ _ _ h
    cases l₂ with
    | nil => rfl
    | cons b t => simp at h
  | cons a t ih =>
    intro l₂ h₁ h₂ h
    cases l₂ with
    | nil => simp at h
    | cons b t' =>
      simp only [List.map_cons, List.cons.injEq] at h
      have ha : a < 10 := h₁ a (by simp)
      have hb : b < 10 := h₂ b (by simp)
      have hab : a = b := digitChar_inj_lt a ha b hb h.1
      have ht : t = t' :=
        ih t' (fun d hd => h₁ d (by simp [hd])) (fun d hd => h₂ d (by simp [hd])) h.2
      rw [hab, ht]

theorem natDecStr_mem_ne_dash {n : Nat} {c : Char} (hc : c ∈ (natDecStr n).data) :
    c ≠ '-' := by
  unfold natDecStr at hc
  by_cases h0 : n = 0
  · rw [if_pos h0] at hc
    simp only [show ("0" : String).data = ['0'] from rfl, List.mem_singleton] at hc
    rw [hc]; decide
  · rw [if_neg h0] at hc
    simp only [List.mem_reverse, List.mem_map] at hc
    obtain ⟨d, hd, hdc⟩ := hc
    rw [← hdc]
    exact digitChar_ne_dash d (mem_decDigits_lt hd)

theorem natDecStr_injective : Function.Injective natDecStr := by
  intro m n h
  unfold natDecStr at h
  by_cases hm : m = 0 <;> by_cases hn : n = 0
  · rw [hm, hn]
  · exfalso
    rw [if_pos hm, if_neg hn] at h
    have hd : (["0".data.head!] : List Char) =
        ((decDigits n).map (fun d => Char.ofNat (d + 48))).reverse := by
      have := congrArg String.data h
      simpa using this
    have hrev : (decDigits n).map (fun d => Char.ofNat (d + 48)) = ['0'] := by
      have := congrArg List.reverse hd
      simpa using this.symm
    have : decDigits n = [0] := by
      have h0 : ([0] : List Nat).map (fun d => Char.ofNat (d + 48)) = ['0'] := by decide
      exact map_digitChar_inj _ _ (fun d hd => mem_decDigits_lt hd)
        (by intro d hd; simp at hd; omega) (by rw [hrev, h0])
    have : Nat.digits 10 n = [0] := by rw [← decDigits_eq_digits]; exact this
    have : n = 0 := by
      have hofd := Nat.ofDigits_digits 10 n
      rw [this] at hofd
      simpa [Nat.ofDigits] using hofd.symm
    exact hn this
  · exfalso
    rw [if_neg hm, if_pos hn] at h
    have hd : ((decDigits m).map (fun d => Char.ofNat (d + 48))).reverse =
        (["0".data.head!] : List Char) := by
      have := congrArg String.data h
      simpa using this
    have hrev : (decDigits m).map (fun d => Char.ofNat (d + 48)) = ['0'] := by
      have := congrArg List.reverse hd
      simpa using this
    have : decDigits m = [0] := by
      have h0 : ([0] : List Nat).map (fun d => Char.ofNat (d + 48)) = ['0'] := by decide
      exact map_digitChar_inj _ _ (fun d hd => mem_decDigits_lt hd)
        (by intro d hd; simp at hd; omega) (by rw [hrev, h0])
    have : Nat.digits 10 m = [0] := by rw [← decDigits_eq_digits]; exact this
    have : m = 0 := by
      have hofd := Nat.ofDigits_digits 10 m
      rw [this] at hofd
      simpa [Nat.ofDigits] using hofd.symm
    exact hm this
  · rw [if_neg hm, if_neg hn] at h
    have hdata := congrArg String.data h
    simp only at hdata
    have hmap : (decDigits m).map (fun d => Char.ofNat (d + 48)) =
        (decDigits n).map (fun d => Char.ofNat (d + 48)) :=
      List.reverse_injective hdata
    have hdd : decDigits m = decDigits n :=
      map_digitChar_inj _ _ (fun d hd => mem_decDigits_lt hd)
        (fun d hd => mem_decDigits_lt hd) hmap
    rw [decDigits_eq_digits, decDigits_eq_digits] at hdd
    exact Nat.digits.injective 10 hdd

theorem jsIntToString_injective : Function.Injective jsIntToString := by
  intro i j h
  cases i with
  | ofNat m =>
    cases j with
    | ofNat n =>
      exact congrArg Int.ofNat (natDecStr_injective h)
    | negSucc n =>
      exfalso
      have hdata := congrArg String.data h
      simp only [jsIntToString, String.data_append] at hdata
      have : '-' ∈ (natDecStr m).data := by
        rw [hdata]
        simp [show ("-" : String).data = ['-'] from rfl]
      exact natDecStr_mem_ne_dash this rfl
  | negSucc m =>
    cases j with
    | ofNat n =>
      exfalso
      have hdata := congrArg String.data h
      simp only [jsIntToString, String.data_append] at hdata
      have : '-' ∈ (natDecStr n).data := by
        rw [← hdata]
        simp [show ("-" : String).data = ['-'] from rfl]
      exact natDecStr_mem_ne_dash this rfl
    | negSucc n =>
      simp only [jsIntToString] at h
      have hdata := congrArg String.data h
      simp only [String.data_append,
        show ("-" : String).data = ['-'] from rfl] at hdata
      have hnd : (natDecStr (m + 1)).data = (natDecStr (n + 1)).data := by
        simpa using hdata
      have : natDecStr (m + 1) = natDecStr (n + 1) := by
        cases hm : natDecStr (m + 1); cases hn : natDecStr (n + 1)
        rw [hm, hn] at hnd
        exact congrArg String.mk (by simpa using hnd)
      have := natDecStr_injective this
      simp only [Int.negSucc.injEq]
      omega

/-! ### Pipeline unfolding lemmas -/

theorem validateRequest_ok {ctx : Ctx} {t : EType} {ar : Bool}
    (h1 : jsIsNaN ctx.paramsId = false) (h2 : AUTH_REQUIRED t = some ar) :
    validateRequest ctx t = .ok (jsParseInt10 ctx.paramsId) ar := by
  simp [validateRequest, h1, h2]

theorem stream_export_eq {env : Env} {ctx : Ctx} {rec : ExportRecord}
    (h1 : jsIsNaN ctx.paramsId = false)
    (hm : env.exportDb (jsParseInt10 ctx.paramsId) = some rec) :
    stream env ctx EXPORT =
      if verifyAuth env ctx EXPORT rec.filmId then
        .streamed
          (env.root ++ "/" ++ "exports" ++ "/" ++ jsNumToString (jsParseInt10 ctx.paramsId))
          (some rec.mime)
          (if ctx.queryDownload.isSome then some rec.filename else none)
          (some 0)
      else .unauthorized := by
  have hv : validateRequest ctx EXPORT = .ok (jsParseInt10 ctx.paramsId) true :=
    validateRequest_ok h1 rfl
  have hmeta : getTypeMeta env EXPORT (jsParseInt10 ctx.paramsId) =
      some ⟨rec.filmId, some rec.mime, some rec.filename⟩ := by
    simp [getTypeMeta, hm]
  unfold stream
  simp only [hv, hmeta]
  cases hva : verifyAuth env ctx EXPORT rec.filmId
  · simp [hva]
  · simp [hva, generatePath, CACHE_DURATION, EXPORT]

theorem stream_thumb_eq {env : Env} {ctx : Ctx} {rec : ThumbnailRecord}
    (h1 : jsIsNaN ctx.paramsId = false)
    (hm : env.thumbDb (jsParseInt10 ctx.paramsId) = some rec) :
    stream env ctx THUMBNAIL =
      .streamed
        (env.root ++ "/" ++ "thumbs" ++ "/" ++ jsNumToString (jsParseInt10 ctx.paramsId))
        rec.mime none (some 600) := by
  have hv : validateRequest ctx THUMBNAIL = .ok (jsParseInt10 ctx.paramsId) false :=
    validateRequest_ok h1 rfl
  have hmeta : getTypeMeta env THUMBNAIL (jsParseInt10 ctx.paramsId) =
      some ⟨rec.filmId, rec.mime, none⟩ := by
    simp [getTypeMeta, THUMBNAIL, EXPORT, hm]
  unfold stream
  simp only [hv, hmeta]
  simp [generatePath, CACHE_DURATION, THUMBNAIL, EXPORT]

theorem verifyAuth_export_true_iff (env : Env) (ctx : Ctx) (f : Int) :
    verifyAuth env ctx EXPORT f = true ↔
      ∃ s p, ctx.queryAuthorisation = some (JSVal.str s) ∧
        env.verifyJwt s env.secret = some p ∧ p.resourceId = f := by
  unfold verifyAuth
  cases ha : ctx.queryAuthorisation with
  | none => simp
  | some v =>
    cases v with
    | str s =>
      cases hj : env.verifyJwt s env.secret with
      | none => simp [hj]
      | some p => simp [hj]
    | other => simp

theorem stream_cache_eq {env : Env} {ctx : Ctx} {t : EType} {p : String}
    {m a : Option String} {c : Option Nat}
    (h : stream env ctx t = .streamed p m a c) : c = CACHE_DURATION t := by
  unfold stream at h
  split at h
  · exact absurd h (by simp)
  · exact absurd h (by simp)
  · split at h
    · exact absurd h (by simp)
    · split at h
      · exact absurd h (by simp)
      · split at h
        · exact absurd h (by simp)
        · simp only [StreamResult.streamed.injEq] at h
          exact h.2.2.2.symm

theorem joinPath_cancel {root seg s t : String}
    (h : root ++ "/" ++ seg ++ "/" ++ s = root ++ "/" ++ seg ++ "/" ++ t) : s = t := by
  have hd := congrArg String.data h
  simp only [String.data_append] at hd
  have hst := List.append_cancel_left hd
  cases s; cases t; exact congrArg String.mk hst

theorem joinPath_exports_ne_thumbs {root s t : String}
    (h : root ++ "/" ++ "exports" ++ "/" ++ s = root ++ "/" ++ "thumbs" ++ "/" ++ t) :
    False := by
  have hd := congrArg String.data h
  simp only [String.data_append, List.append_assoc] at hd
  have h2 := List.append_cancel_left hd
  injection h2 with ha hb
  injection hb with hc hdd
  exact absurd hc (by decide)

/-! ### The claims -/

/-- C1: for every Export request whose resource metadata resolves, the
pipeline returns Unauthorized (HTTP 401) iff the `authorisation` query
parameter is missing or not a string, or JWT verification of it fails,
or the verified token's `resourceId` claim differs from the resource's
owning `filmId`; in all such cases no streaming occurs. -/
theorem c1_export_unauthorized_iff (env : Env) (ctx : Ctx) (rec : ExportRecord)
    (h1 : jsIsNaN ctx.paramsId = false)
    (hm : env.exportDb (jsParseInt10 ctx.paramsId) = some rec) :
    (stream env ctx EXPORT = .unauthorized ↔
      (∀ s, ctx.queryAuthorisation ≠ some (JSVal.str s)) ∨
      (∃ s, ctx.queryAuthorisation = some (JSVal.str s) ∧
        (env.verifyJwt s env.secret = none ∨
         ∃ p, env.verifyJwt s env.secret = some p ∧ p.resourceId ≠ rec.filmId))) ∧
    (stream env ctx EXPORT = .unauthorized →
      httpStatus (stream env ctx EXPORT) = some 401 ∧
      ∀ path m a c, stream env ctx EXPORT ≠ .streamed path m a c) := by
  constructor
  · rw [stream_export_eq h1 hm]
    cases hva : verifyAuth env ctx EXPORT rec.filmId
    · rw [if_neg (by simp)]
      constructor
      · intro _
        have hnot : ¬ ∃ s p, ctx.queryAuthorisation = some (JSVal.str s) ∧
            env.verifyJwt s env.secret = some p ∧ p.resourceId = rec.filmId := by
          rw [← verifyAuth_export_true_iff]
          simp [hva]
        cases ha : ctx.queryAuthorisation with
        | none => exact Or.inl (by simp)
        | some v =>
          cases v with
          | other => exact Or.inl (by simp [ha])
          | str s =>
            refine Or.inr ⟨s, rfl, ?_⟩
            cases hj : env.verifyJwt s env.secret with
            | none => exact Or.inl rfl
            | some p =>
              refine Or.inr ⟨p, rfl, fun hr => hnot ⟨s, p, ha, hj, hr⟩⟩
      · intro _; rfl
    · have hva' := (verifyAuth_export_true_iff env ctx rec.filmId).mp hva
      obtain ⟨s, p, has, hjp, hrid⟩ := hva'
      rw [if_pos rfl]
      constructor
      · intro h; exact absurd h (by simp)
      · rintro (hmiss | ⟨s', has', hbad⟩)
        · exact absurd has (hmiss s)
        · rw [has] at has'
          have hss : s' = s := by
            injection has' with hv2; injection hv2 with hv3; exact hv3.symm
          rcases hbad with hnone | ⟨p', hjp', hne⟩
          · rw [hss] at hnone; rw [hnone] at hjp; cases hjp
          · rw [hss] at hjp'
            rw [hjp] at hjp'
            injection hjp' with hpp
            exact absurd hrid (hpp ▸ hne)
  · intro h
    refine ⟨by rw [h]; rfl, fun path m a c hc => ?_⟩
    rw [h] at hc
    cases hc

/-- C1 witness: export 42 exists in the sample environment, and a
request without the `authorisation` parameter is rejected. -/
theorem c1_witness :
    stream sampleEnv ⟨"42", none, none⟩ EXPORT = .unauthorized := by
  refine ((c1_export_unauthorized_iff sampleEnv ⟨"42", none, none⟩
    ⟨"film.mp4", "video/mp4", 7⟩ (by decide) (by decide)).1).mpr ?_
  exact Or.inl (by simp)

/-- C2: for every Export request with a valid id, existing metadata, and
a token that verifies with `resourceId` equal to the owning film id, the
request reaches the streaming stage with the resolved MIME type. -/
theorem c2_export_authorized_streams (env : Env) (ctx : Ctx) (rec : ExportRecord)
    (s : String) (p : Claims)
    (h1 : jsIsNaN ctx.paramsId = false)
    (hm : env.exportDb (jsParseInt10 ctx.paramsId) = some rec)
    (ha : ctx.queryAuthorisation = some (JSVal.str s))
    (hj : env.verifyJwt s env.secret = some p)
    (hr : p.resourceId = rec.filmId) :
    stream env ctx EXPORT =
      .streamed
        (env.root ++ "/" ++ "exports" ++ "/" ++ jsNumToString (jsParseInt10 ctx.paramsId))
        (some rec.mime)
        (if ctx.queryDownload.isSome then some rec.filename else none)
        (some 0) := by
  have hva : verifyAuth env ctx EXPORT rec.filmId = true :=
    (verifyAuth_export_true_iff env ctx rec.filmId).mpr ⟨s, p, ha, hj, hr⟩
  rw [stream_export_eq h1 hm, if_pos hva]

/-- C2 witness: a correctly signed token for film 7 streams export 42. -/
theorem c2_witness :
    stream sampleEnv ⟨"42", some (JSVal.str "goodtoken"), none⟩ EXPORT =
      .streamed "/glacier/exports/42" (some "video/mp4") none (some 0) := by
  have := c2_export_authorized_streams sampleEnv ⟨"42", some (JSVal.str "goodtoken"), none⟩
    ⟨"film.mp4", "video/mp4", 7⟩ "goodtoken" ⟨7⟩
    (by decide) (by decide) (by decide) (by decide) (by decide)
  exact this.trans (by decide)

/-- C3 counterexample: the raw id `"-5"` is negative, hence not a valid
non-negative integer, yet the pipeline does not return BadRequest — it
performs the metadata lookup and streams thumbnail -5. -/
theorem c3_counterexample :
    stream sampleEnv ⟨"-5", none, none⟩ THUMBNAIL =
      .streamed "/glacier/thumbs/-5" (some "image/png") none (some 600) ∧
    httpStatus (stream sampleEnv ⟨"-5", none, none⟩ THUMBNAIL) ≠ some 400 :=
  ⟨by decide, by decide⟩

/-- C3 (amended): for every raw id path value whose JS numeric coercion
is NaN, the pipeline returns BadRequest (HTTP 400) with the message
`"id" must be a number`, independently of the environment — so no
metadata store lookup can influence the outcome.  (Negative or
fractional numeric strings such as `"-5"` and `"3.5"` are accepted, not
rejected.) -/
theorem c3_amended_nan_badRequest (env : Env) (ctx : Ctx) (t : EType)
    (h : jsIsNaN ctx.paramsId = true) :
    stream env ctx t = .badRequest "\"id\" must be a number" ∧
    httpStatus (stream env ctx t) = some 400 := by
  have hv : validateRequest ctx t = .badRequest "\"id\" must be a number" := by
    simp [validateRequest, h]
  unfold stream
  simp only [hv]
  exact ⟨trivial, rfl⟩

/-- C3 amended witness: the non-numeric id `"abc"` yields BadRequest. -/
theorem c3_amended_witness :
    stream sampleEnv ⟨"abc", none, none⟩ EXPORT = .badRequest "\"id\" must be a number" ∧
    httpStatus (stream sampleEnv ⟨"abc", none, none⟩ EXPORT) = some 400 :=
  c3_amended_nan_badRequest sampleEnv ⟨"abc", none, none⟩ EXPORT (by decide)

/-- C4: whenever the pipeline reaches the streaming stage, the cache
value applied is exactly the static table entry — Export sets
`ctx.cache = 0`, which the response layer turns into no caching header
at all, and Thumbnail sets exactly 600 seconds. -/
theorem c4_cache_directive (env : Env) (ctx : Ctx) :
    CACHE_DURATION EXPORT = some 0 ∧ CACHE_DURATION THUMBNAIL = some 600 ∧
    (∀ p m a c, stream env ctx EXPORT = .streamed p m a c →
      c = some 0 ∧ emittedCacheHeader c = none) ∧
    (∀ p m a c, stream env ctx THUMBNAIL = .streamed p m a c →
      c = some 600 ∧ emittedCacheHeader c = some 600) := by
  refine ⟨rfl, rfl, ?_, ?_⟩
  · intro p m a c h
    have hc := stream_cache_eq h
    rw [hc]
    exact ⟨rfl, rfl⟩
  · intro p m a c h
    have hc := stream_cache_eq h
    rw [hc]
    exact ⟨rfl, rfl⟩

/-- C4 witness: the cache conclusions evaluated on concrete streamed
requests for both kinds. -/
theorem c4_witness :
    emittedCacheHeader (some 0) = none ∧ emittedCacheHeader (some 600) = some 600 := by
  constructor
  · exact ((c4_cache_directive sampleEnv ⟨"42", some (JSVal.str "goodtoken"), none⟩).2.2.1
      "/glacier/exports/42" (some "video/mp4") none (some 0) (by decide)).2
  · exact ((c4_cache_directive sampleEnv ⟨"3", none, none⟩).2.2.2
      "/glacier/thumbs/3" (some "image/png") none (some 600) (by decide)).2

/-- C5: for every syntactically valid id with no backing metadata record
for the kind, the pipeline returns NotFound (HTTP 404) regardless of the
supplied token, and the outcome is unchanged under any replacement of
the verifier and secret — no authorization check influences it. -/
theorem c5_notFound (env : Env) (ctx : Ctx) (t : EType) (ar : Bool)
    (h1 : jsIsNaN ctx.paramsId = false)
    (h2 : AUTH_REQUIRED t = some ar)
    (h3 : getTypeMeta env t (jsParseInt10 ctx.paramsId) = none) :
    stream env ctx t = .notFound ∧
    httpStatus (stream env ctx t) = some 404 ∧
    (∀ vj sec, stream { env with verifyJwt := vj, secret := sec } ctx t = .notFound) := by
  have hv := validateRequest_ok h1 h2
  have main : ∀ e : Env, getTypeMeta e t (jsParseInt10 ctx.paramsId) = none →
      stream e ctx t = .notFound := by
    intro e he
    unfold stream
    simp only [hv, he]
  refine ⟨main env h3, ?_, fun vj sec => main _ h3⟩
  rw [main env h3]
  rfl

/-- C5 witness: thumbnail 99 has no record; the request with a valid
token still gets NotFound. -/
theorem c5_witness :
    stream sampleEnv ⟨"99", some (JSVal.str "goodtoken"), none⟩ THUMBNAIL = .notFound :=
  (c5_notFound sampleEnv ⟨"99", some (JSVal.str "goodtoken"), none⟩ THUMBNAIL false
    (by decide) (by decide) (by decide)).1

/-- C6: for every Thumbnail request with a valid id and existing
metadata, the streaming stage is reached; no token is required
(`AUTH_REQUIRED` is false for thumbnails) and the outcome is unchanged
under any replacement of the verifier and secret. -/
theorem c6_thumbnail_streams_without_auth (env : Env) (ctx : Ctx) (rec : ThumbnailRecord)
    (h1 : jsIsNaN ctx.paramsId = false)
    (hm : env.thumbDb (jsParseInt10 ctx.paramsId) = some rec) :
    AUTH_REQUIRED THUMBNAIL = some false ∧
    stream env ctx THUMBNAIL =
      .streamed
        (env.root ++ "/" ++ "thumbs" ++ "/" ++ jsNumToString (jsParseInt10 ctx.paramsId))
        rec.mime none (some 600) ∧
    (∀ vj sec, stream { env with verifyJwt := vj, secret := sec } ctx THUMBNAIL =
      stream env ctx THUMBNAIL) := by
  refine ⟨rfl, stream_thumb_eq h1 hm, fun vj sec => ?_⟩
  have h2 := @stream_thumb_eq { env with verifyJwt := vj, secret := sec } ctx rec h1 hm
  rw [h2, stream_thumb_eq h1 hm]

/-- C6 witness: thumbnail 3 streams with no token at all. -/
theorem c6_witness :
    stream sampleEnv ⟨"3", none, none⟩ THUMBNAIL =
      .streamed "/glacier/thumbs/3" (some "image/png") none (some 600) := by
  have := (c6_thumbnail_streams_without_auth sampleEnv ⟨"3", none, none⟩
    ⟨some "image/png", 7⟩ (by decide) (by decide)).2.1
  exact this.trans (by decide)

/-- C7: whenever a request reaches the streaming stage, the attachment
filename handed to the streaming primitive is exactly the metadata's
display filename when the `download` query flag is present, and nothing
(inline disposition) when the flag is absent — even if a filename exists
in the metadata. -/
theorem c7_attachment (env : Env) (ctx : Ctx) (t : EType) (id : Option Int)
    (ar : Bool) (meta : TypeMeta) (p : String) (m a : Option String) (c : Option Nat)
    (hv : validateRequest ctx t = .ok id ar)
    (hm : getTypeMeta env t id = some meta)
    (hs : stream env ctx t = .streamed p m a c) :
    a = (if ctx.queryDownload.isSome then meta.filename else none) := by
  unfold stream at hs
  simp only [hv, hm] at hs
  split at hs
  · exact absurd hs (by simp)
  · split at hs
    · exact absurd hs (by simp)
    · simp only [StreamResult.streamed.injEq] at hs
      exact hs.2.2.1.symm

/-- C7 witness: with the `download` flag present, export 42 is streamed
with the display filename from its metadata as the attachment name. -/
theorem c7_witness :
    (some "film.mp4" : Option String) =
      (if (some JSVal.other : Option JSVal).isSome
        then (TypeMeta.mk 7 (some "video/mp4") (some "film.mp4")).filename else none) :=
  c7_attachment sampleEnv ⟨"42", some (JSVal.str "goodtoken"), some JSVal.other⟩
    EXPORT (some 42) true ⟨7, some "video/mp4", some "film.mp4"⟩
    "/glacier/exports/42" (some "video/mp4") (some "film.mp4") (some 0)
    (by decide) (by decide) (by decide)

/-- C8: the content path resolver maps an Export id to the storage root
joined with `exports` and the decimal string of the id, a Thumbnail id
to the root joined with `thumbs` and the decimal string of the id, and
is injective: distinct (kind, id) pairs yield distinct paths. -/
theorem c8_path_resolver (root : String) :
    (∀ i : Int, generatePath root EXPORT (some i) =
      .ok (root ++ "/" ++ "exports" ++ "/" ++ jsIntToString i)) ∧
    (∀ i : Int, generatePath root THUMBNAIL (some i) =
      .ok (root ++ "/" ++ "thumbs" ++ "/" ++ jsIntToString i)) ∧
    (∀ (k₁ k₂ : EType) (i₁ i₂ : Int) (pth : String),
      (k₁ = EXPORT ∨ k₁ = THUMBNAIL) → (k₂ = EXPORT ∨ k₂ = THUMBNAIL) →
      generatePath root k₁ (some i₁) = .ok pth →
      generatePath root k₂ (some i₂) = .ok pth →
      k₁ = k₂ ∧ i₁ = i₂) := by
  refine ⟨fun i => rfl, fun i => rfl, ?_⟩
  intro k₁ k₂ i₁ i₂ pth hk₁ hk₂ hp₁ hp₂
  rcases hk₁ with h₁ | h₁ <;> rcases hk₂ with h₂ | h₂ <;> subst h₁ <;> subst h₂
  · injection hp₁ with hq₁
    injection hp₂ with hq₂
    refine ⟨rfl, jsIntToString_injective ?_⟩
    exact joinPath_cancel (hq₁.trans hq₂.symm)
  · injection hp₁ with hq₁
    injection hp₂ with hq₂
    exact absurd (hq₁.trans hq₂.symm) (fun h => joinPath_exports_ne_thumbs h)
  · injection hp₁ with hq₁
    injection hp₂ with hq₂
    exact absurd (hq₂.trans hq₁.symm) (fun h => joinPath_exports_ne_thumbs h)
  · injection hp₁ with hq₁
    injection hp₂ with hq₂
    refine ⟨rfl, jsIntToString_injective ?_⟩
    exact joinPath_cancel (hq₁.trans hq₂.symm)

/-- C8 witness: the resolver evaluated at export id 5 under root
`/glacier`, and the injectivity conclusion at a concrete pair. -/
theorem c8_witness :
    generatePath "/glacier" EXPORT (some 5) =
      .ok ("/glacier" ++ "/" ++ "exports" ++ "/" ++ jsIntToString 5) ∧
    (EXPORT = EXPORT ∧ (5 : Int) = 5) := by
  refine ⟨(c8_path_resolver "/glacier").1 5, ?_⟩
  exact (c8_path_resolver "/glacier").2.2 EXPORT EXPORT 5 5 "/glacier/exports/5"
    (Or.inl rfl) (Or.inl rfl) rfl rfl

/-- C9: the authorization policy is exhaustive over the closed kind set:
for a kind outside Export and Thumbnail the pipeline never produces the
user-visible Unauthorized decision and never streams — with a
well-formed id it throws the fatal internal error from the
`AUTH_REQUIRED` lookup; and Export is the only kind whose policy table
requires authorization (so no kind requires it without a rule). -/
theorem c9_exhaustive_policy :
    (∀ (env : Env) (ctx : Ctx) (t : EType), t ≠ EXPORT → t ≠ THUMBNAIL →
      stream env ctx t ≠ .unauthorized ∧
      (∀ p m a c, stream env ctx t ≠ .streamed p m a c) ∧
      (jsIsNaN ctx.paramsId = false →
        stream env ctx t =
          .thrown ("Could not find authorisation requirement for type " ++ natDecStr t))) ∧
    (∀ t : EType, AUTH_REQUIRED t = some true → t = EXPORT) := by
  constructor
  · intro env ctx t h0 h1
    have hA : AUTH_REQUIRED t = none := by
      simp [AUTH_REQUIRED, h0, h1]
    by_cases hn : jsIsNaN ctx.paramsId = true
    · have hv : validateRequest ctx t = .badRequest "\"id\" must be a number" := by
        simp [validateRequest, hn]
      unfold stream
      simp only [hv]
      refine ⟨by simp, fun p m a c => by simp, fun hf => ?_⟩
      rw [hf] at hn
      simp at hn
    · have hn' : jsIsNaN ctx.paramsId = false := by simpa using hn
      have hv : validateRequest ctx t =
          .thrown ("Could not find authorisation requirement for type " ++ natDecStr t) := by
        simp [validateRequest, hn', hA]
      unfold stream
      simp only [hv]
      exact ⟨by simp, fun p m a c => by simp, fun _ => trivial⟩
  · intro t h
    by_cases h0 : t = EXPORT
    · exact h0
    · exfalso
      have hA : AUTH_REQUIRED t = some false ∨ AUTH_REQUIRED t = none := by
        by_cases h1 : t = THUMBNAIL
        · exact Or.inl (by simp [AUTH_REQUIRED, EXPORT, THUMBNAIL, h1])
        · exact Or.inr (by simp [AUTH_REQUIRED, h0, h1])
      rcases hA with hA | hA <;> rw [hA] at h <;> simp at h

/-- C9 witness: kind 2 with a well-formed id throws the fatal error, and
the only kind whose table entry is `true` is Export. -/
theorem c9_witness :
    stream sampleEnv ⟨"1", none, none⟩ 2 =
      .thrown ("Could not find authorisation requirement for type " ++ natDecStr 2) ∧
    EXPORT = EXPORT := by
  constructor
  · exact (c9_exhaustive_policy.1 sampleEnv ⟨"1", none, none⟩ 2
      (by decide) (by decide)).2.2 (by decide)
  · exact c9_exhaustive_policy.2 EXPORT rfl

/-- C10 (implicit): the validator accepts every id string whose JS
numeric coercion is not NaN — including `"-5"` and `"3.5"` — and the id
handed to the later stages is `parseInt(id, 10)`, so a request for id
`"3.5"` is served as resource 3. -/
theorem c10_validator_semantics :
    (∀ (ctx : Ctx) (t : EType) (ar : Bool), jsIsNaN ctx.paramsId = false →
      AUTH_REQUIRED t = some ar →
      validateRequest ctx t = .ok (jsParseInt10 ctx.paramsId) ar) ∧
    jsIsNaN "-5" = false ∧ jsIsNaN "3.5" = false ∧
    jsParseInt10 "3.5" = some 3 ∧ jsParseInt10 "-5" = some (-5) ∧
    stream sampleEnv ⟨"3.5", none, none⟩ THUMBNAIL =
      .streamed "/glacier/thumbs/3" (some "image/png") none (some 600) :=
  ⟨fun _ _ _ h1 h2 => validateRequest_ok h1 h2,
    by decide, by decide, by decide, by decide, by decide⟩

/-- C10 witness: the validator conclusion evaluated at the fractional id
`"3.5"` for the Thumbnail kind. -/
theorem c10_witness :
    validateRequest ⟨"3.5", none, none⟩ THUMBNAIL = .ok (some 3) false := by
  have := c10_validator_semantics.1 ⟨"3.5", none, none⟩ THUMBNAIL false
    (by decide) (by decide)
  exact this.trans (by decide)

end Glacier
